import Mathlib

/-!
Shallow embedding, in Lean 4, of the domain core of the `coderev` code-review
platform (Python): the `CodeReview` entity and its state machine
(`src/domain/entities/code_review.py`), the `RiskScore` entity
(`src/domain/entities/risk_score.py`), the SLA engine
(`src/domain/services/sla_service.py`), the review domain service
(`src/domain/services/review_service.py`), and the in-memory repository's
text search (`src/infrastructure/repositories/in_memory_repositories.py`).

Modelling conventions:
- Python `datetime.now()` is passed explicitly as a `now : Nat` argument
  (an abstract timestamp measured in hours); `timedelta(hours=h)` is `+ h`.
- Python `set[str]` is `Finset String`; `len` is `Finset.card`.
- Python floats are modelled as exact rationals `ℚ` (the spec and the
  test-suite speak in exact decimal values).
- Fallible methods (those that `raise ValueError`) return
  `Except String CodeReview`.
- Python `needle in haystack` on strings is `strContainsB`, and
  `str.lower()` is `lowerStr` (ASCII case folding, which coincides with
  Python on all strings the spec scenarios use).
-/

/-- `src/domain/entities/user.py` — `UserRole` enum. -/
inductive UserRole where
  | developer
  | reviewer
  | qa_engineer
  | security_engineer
  | compliance_officer
  | admin
deriving DecidableEq, Repr

/-- The `.value` string of each `UserRole` member. -/
def UserRole.value : UserRole → String
  | .developer => "developer"
  | .reviewer => "reviewer"
  | .qa_engineer => "qa_engineer"
  | .security_engineer => "security_engineer"
  | .compliance_officer => "compliance_officer"
  | .admin => "admin"

/-- `src/domain/entities/code_review.py` — `ReviewStatus` enum. -/
inductive ReviewStatus where
  | draft
  | open
  | under_review
  | needs_work
  | approved
  | rejected
  | merged
  | closed
deriving DecidableEq, Repr

/-- The `.value` string of each `ReviewStatus` member. -/
def ReviewStatus.value : ReviewStatus → String
  | .draft => "draft"
  | .open => "open"
  | .under_review => "under_review"
  | .needs_work => "needs_work"
  | .approved => "approved"
  | .rejected => "rejected"
  | .merged => "merged"
  | .closed => "closed"

/-- `src/domain/entities/code_review.py` — `ReviewPriority` enum. -/
inductive ReviewPriority where
  | low
  | medium
  | high
  | critical
deriving DecidableEq, Repr

/-- The `.value` string of each `ReviewPriority` member. -/
def ReviewPriority.value : ReviewPriority → String
  | .low => "low"
  | .medium => "medium"
  | .high => "high"
  | .critical => "critical"

/-- Python `sub in s` on strings, over `List Char`: `needle` occurs as a
contiguous substring of the list. -/
def charsContain (needle : List Char) : List Char → Bool
  | [] => needle.isEmpty
  | c :: rest => needle.isPrefixOf (c :: rest) || charsContain needle rest

/-- Python `needle in hay` for `str` operands. -/
def strContainsB (hay needle : String) : Bool :=
  charsContain needle.toList hay.toList

/-- Python `s.lower()` (ASCII case folding), character by character. -/
def lowerStr (s : String) : String :=
  String.mk (s.toList.map Char.toLower)

/-- `src/domain/entities/user.py` — the `User` dataclass. -/
structure User where
  id : String
  username : String
  email : String
  roles : Finset UserRole
  full_name : Option String := none
  created_at : Nat := 0
deriving DecidableEq

/-- `src/domain/entities/code_review.py` — the (frozen) `CodeReview`
dataclass. The five `sla_*` fields are *modelled from the spec* (section 3
"SLA fields"): the SLA-enabled revision of the entity is referenced by
`src/domain/services/sla_service.py` and by the test suite
(`src/tests/domain/test_sla_service.py`) but is not among the files under
`src/`; all other fields are transcribed from the source. Counters are
`Nat` (the spec constrains them to be ≥ 0), so the `current_approvals < 0`
validation of `__post_init__` is unrepresentable here. -/
structure CodeReview where
  id : String
  title : String
  description : String
  source_branch : String
  target_branch : String
  requester : User
  created_at : Nat := 0
  updated_at : Nat := 0
  status : ReviewStatus := .open
  priority : ReviewPriority := .medium
  reviewers : Finset String := ∅
  approvers : Finset String := ∅
  rejectors : Finset String := ∅
  required_approvals : Nat := 1
  current_approvals : Nat := 0
  risk_score : Option ℚ := none
  security_approval_required : Bool := false
  qa_approval_required : Bool := false
  labels : Finset String := ∅
  comments_count : Nat := 0
  files_changed : Nat := 0
  additions : Nat := 0
  deletions : Nat := 0
  ephemeral_environment_url : Option String := none
  sla_hours_limit : Nat := 48
  sla_deadline : Option Nat := none
  is_escalated : Bool := false
  escalation_level : Nat := 0
  escalation_notified_at : Option Nat := none
deriving DecidableEq

namespace CodeReview

/-- `CodeReview.__post_init__` validation (the `current_approvals < 0`
check is vacuous over `Nat`). -/
def valid (r : CodeReview) : Bool :=
  r.id ≠ "" && r.source_branch ≠ "" && r.target_branch ≠ "" &&
    1 ≤ r.required_approvals

/-- `CodeReview._update_reviewers`: copy every field, replacing `reviewers`
and refreshing `updated_at` to `now`. -/
def _update_reviewers (r : CodeReview) (now : Nat)
    (reviewers : Finset String) : CodeReview :=
  { r with reviewers := reviewers, updated_at := now }

/-- `CodeReview._update_approvals`: copy every field, replacing the approval
bookkeeping and `status`, refreshing `updated_at`. -/
def _update_approvals (r : CodeReview) (now : Nat)
    (approvers rejectors : Finset String) (current_approvals : Nat)
    (status : ReviewStatus) : CodeReview :=
  { r with approvers := approvers, rejectors := rejectors,
           current_approvals := current_approvals, status := status,
           updated_at := now }

/-- `CodeReview._update_status`: copy every field, replacing `status` and
refreshing `updated_at`. -/
def _update_status (r : CodeReview) (now : Nat)
    (status : ReviewStatus) : CodeReview :=
  { r with status := status, updated_at := now }

/-- `CodeReview._update_comments_count`: copy every field, replacing
`comments_count` and refreshing `updated_at`. -/
def _update_comments_count (r : CodeReview) (now : Nat)
    (comments_count : Nat) : CodeReview :=
  { r with comments_count := comments_count, updated_at := now }

/-- `CodeReview.assign_reviewer`. -/
def assign_reviewer (r : CodeReview) (now : Nat) (reviewer_id : String) :
    CodeReview :=
  r._update_reviewers now (insert reviewer_id r.reviewers)

/-- `CodeReview.request_changes`: add to rejectors, remove from approvers,
recompute `current_approvals`, status becomes `needs_work`. -/
def request_changes (r : CodeReview) (now : Nat) (reviewer_id : String) :
    CodeReview :=
  let new_rejectors := insert reviewer_id r.rejectors
  let new_approvers := r.approvers.erase reviewer_id
  r._update_approvals now new_approvers new_rejectors new_approvers.card
    .needs_work

/-- `CodeReview.approve`: only from `open`/`under_review`; add to approvers,
remove from rejectors, recompute `current_approvals`; status flips to
`approved` once `current_approvals >= required_approvals`. -/
def approve (r : CodeReview) (now : Nat) (reviewer_id : String) :
    Except String CodeReview :=
  if r.status = .open ∨ r.status = .under_review then
    let new_approvers := insert reviewer_id r.approvers
    let new_rejectors := r.rejectors.erase reviewer_id
    let current_approvals := new_approvers.card
    let new_status :=
      if r.required_approvals ≤ current_approvals then ReviewStatus.approved
      else r.status
    .ok (r._update_approvals now new_approvers new_rejectors
      current_approvals new_status)
  else
    .error ("Cannot approve review with status " ++ r.status.value)

/-- `CodeReview.reject`: only from `open`/`under_review`; add to rejectors,
remove from approvers, recompute `current_approvals`; status becomes
`rejected`. -/
def reject (r : CodeReview) (now : Nat) (reviewer_id : String) :
    Except String CodeReview :=
  if r.status = .open ∨ r.status = .under_review then
    let new_rejectors := insert reviewer_id r.rejectors
    let new_approvers := r.approvers.erase reviewer_id
    .ok (r._update_approvals now new_approvers new_rejectors
      new_approvers.card .rejected)
  else
    .error ("Cannot reject review with status " ++ r.status.value)

/-- Python `any("sub" in role.value for role in requester.roles)` used by
`can_merge`. -/
def requesterRoleHasSub (r : CodeReview) (sub : String) : Bool :=
  decide (∃ role ∈ r.requester.roles, strContainsB role.value sub = true)

/-- `CodeReview.can_merge`: status must be `approved`; when
`security_approval_required` (resp. `qa_approval_required`) is set, some
role of the requester must contain `"security"` (resp. `"qa"`); finally
`current_approvals >= required_approvals`. -/
def can_merge (r : CodeReview) : Bool :=
  if r.status ≠ .approved then false
  else if r.security_approval_required && !(r.requesterRoleHasSub "security")
    then false
  else if r.qa_approval_required && !(r.requesterRoleHasSub "qa") then false
  else decide (r.required_approvals ≤ r.current_approvals)

/-- `CodeReview.merge`: fail unless `can_merge()`, else status `merged`.
(The source's error text is "Cannot merge review that doesn't meet all
requirements"; the apostrophe is elided here.) -/
def merge (r : CodeReview) (now : Nat) : Except String CodeReview :=
  if r.can_merge = false then
    .error "Cannot merge review that does not meet all requirements"
  else
    .ok (r._update_status now .merged)

/-- `CodeReview.close`. -/
def close (r : CodeReview) (now : Nat) : CodeReview :=
  r._update_status now .closed

/-- `CodeReview.add_comment`. -/
def add_comment (r : CodeReview) (now : Nat) : CodeReview :=
  r._update_comments_count now (r.comments_count + 1)

/-- Modelled from the spec: `CodeReview.set_sla_deadline(hours)` is invoked
by `SLAService.set_sla_deadline` (`src/domain/services/sla_service.py`,
line 47) and exercised by `src/tests/domain/test_sla_service.py`, but the
SLA-enabled revision of the entity is not among the files under `src/`.
Spec section 4.3: `sla_hours_limit := hours`; `sla_deadline := now + hours`
(the entity is immutable, so a new instance is returned with `updated_at`
refreshed). -/
def set_sla_deadline (r : CodeReview) (now : Nat) (hours : Nat) :
    CodeReview :=
  { r with sla_hours_limit := hours, sla_deadline := some (now + hours),
           updated_at := now }

end CodeReview

namespace SLAService

/-- `SLAService.SLA_HOURS_BY_PRIORITY` — the dict literal, as an
association list. -/
def SLA_HOURS_BY_PRIORITY : List (ReviewPriority × Nat) :=
  [(.critical, 4), (.high, 24), (.medium, 48), (.low, 72)]

/-- `SLAService.calculate_sla_hours`: dict `.get(priority, 48)` — the
default 48 is returned whenever the key is absent from the dict (every
`ReviewPriority` member is a key, so that branch is unreachable for
enum-typed priorities). -/
def calculate_sla_hours (r : CodeReview) : Nat :=
  (SLA_HOURS_BY_PRIORITY.lookup r.priority).getD 48

/-- `SLAService.set_sla_deadline`: compute the per-priority hours and
delegate to the entity. -/
def set_sla_deadline (now : Nat) (r : CodeReview) : CodeReview :=
  r.set_sla_deadline now (calculate_sla_hours r)

end SLAService

namespace ReviewDomainService

/-- Python `==` between a `ReviewPriority` enum member and a `str` literal,
as written at `src/domain/services/review_service.py` lines 139 and 141
(`code_review.priority == "high"`): `Enum` defines no equality with `str`,
so the comparison evaluates to `False` for every member and every string. -/
def enumEqStr (_p : ReviewPriority) (_s : String) : Bool := false

/-- `ReviewDomainService.calculate_review_time_estimate`, transcribed from
the source: base 15 + 5 per file; size bonus on `additions + deletions`;
doubled when `risk_score` is set (truthy) and `> 70`; then the priority
branches, which compare the enum-typed `priority` to the strings `"high"`
and `"critical"` (see `enumEqStr`). Python `int(x * 0.75)` and
`int(x * 0.5)` on a non-negative integer `x` are `3 * x / 4` and `x / 2`
in `Nat` division. -/
def calculate_review_time_estimate (r : CodeReview) : Nat :=
  let base := 15 + r.files_changed * 5
  let lines_changed := r.additions + r.deletions
  let withSize :=
    if 500 < lines_changed then base + 60
    else if 200 < lines_changed then base + 30
    else if 50 < lines_changed then base + 15
    else base
  let withRisk :=
    match r.risk_score with
    | some s => if s ≠ 0 ∧ 70 < s then withSize * 2 else withSize
    | none => withSize
  if enumEqStr r.priority "high" then withRisk * 3 / 4
  else if enumEqStr r.priority "critical" then withRisk / 2
  else withRisk

/-- The estimate as the spec (section 4.4) and the source's own inline
comments describe it: identical to `calculate_review_time_estimate` except
that the priority multiplier compares `priority` against the enum members
`high` and `critical`, so it actually applies. Kept separate to exhibit the
divergence caused by the enum-vs-string comparison in the source. -/
def calculate_review_time_estimate_as_documented (r : CodeReview) : Nat :=
  let base := 15 + r.files_changed * 5
  let lines_changed := r.additions + r.deletions
  let withSize :=
    if 500 < lines_changed then base + 60
    else if 200 < lines_changed then base + 30
    else if 50 < lines_changed then base + 15
    else base
  let withRisk :=
    match r.risk_score with
    | some s => if s ≠ 0 ∧ 70 < s then withSize * 2 else withSize
    | none => withSize
  if r.priority = .high then withRisk * 3 / 4
  else if r.priority = .critical then withRisk / 2
  else withRisk

end ReviewDomainService

/-- Python's built-in `abs` on a rational, written so that it evaluates by
kernel reduction. -/
def pyAbs (q : ℚ) : ℚ :=
  if q < 0 then -q else q

/-- `src/domain/entities/risk_score.py` — the (frozen) `RiskScore`
dataclass. In Python, `overall_score` and `risk_level` are `Optional`
before `__post_init__` runs but are always set once it completes, so they
are carried here as plain fields; `mkRiskScore` below performs the
construction (validation included). -/
structure RiskScore where
  id : String
  code_review_id : String
  calculated_at : Nat := 0
  code_complexity_score : ℚ := 0
  security_impact_score : ℚ := 0
  critical_files_score : ℚ := 0
  dataflow_confidence_score : ℚ := 0
  test_coverage_delta_score : ℚ := 0
  code_complexity_weight : ℚ := 0.2
  security_impact_weight : ℚ := 0.3
  critical_files_weight : ℚ := 0.2
  dataflow_confidence_weight : ℚ := 0.2
  test_coverage_delta_weight : ℚ := 0.1
  overall_score : ℚ
  risk_level : String
deriving DecidableEq

namespace RiskScore

/-- `RiskScore._determine_risk_level`: `< 20` Low, `< 40` Medium, `< 70`
High, else Critical. -/
def _determine_risk_level (score : ℚ) : String :=
  if score < 20 then "Low"
  else if score < 40 then "Medium"
  else if score < 70 then "High"
  else "Critical"

/-- `RiskScore.__post_init__` as a fallible constructor: each validation in
source order, then `overall_score` is computed (`_calculate_overall_score`,
the weighted sum, inlined) when not supplied, re-validated to lie in
[0, 100], and `risk_level` derived when not supplied. `overall?` and
`level?` model the dataclass fields `overall_score` / `risk_level` being
passed (or left `None`) at construction. -/
def mkRiskScore (id code_review_id : String) (calculated_at : Nat)
    (f1 f2 f3 f4 f5 w1 w2 w3 w4 w5 : ℚ)
    (overall? : Option ℚ) (level? : Option String) :
    Except String RiskScore :=
  if id = "" then .error "RiskScore ID cannot be empty"
  else if code_review_id = "" then .error "Code review ID cannot be empty"
  else if ¬ (0 ≤ f1 ∧ f1 ≤ 100) then
    .error "code_complexity_score must be between 0 and 100"
  else if ¬ (0 ≤ f2 ∧ f2 ≤ 100) then
    .error "security_impact_score must be between 0 and 100"
  else if ¬ (0 ≤ f3 ∧ f3 ≤ 100) then
    .error "critical_files_score must be between 0 and 100"
  else if ¬ (0 ≤ f4 ∧ f4 ≤ 100) then
    .error "dataflow_confidence_score must be between 0 and 100"
  else if ¬ (0 ≤ f5 ∧ f5 ≤ 100) then
    .error "test_coverage_delta_score must be between 0 and 100"
  else if ¬ (pyAbs (w1 + w2 + w3 + w4 + w5 - 1) ≤ 0.001) then
    .error "Weights must sum to 1.0"
  else if w1 < 0 then .error "code_complexity_weight must be non-negative"
  else if w2 < 0 then .error "security_impact_weight must be non-negative"
  else if w3 < 0 then .error "critical_files_weight must be non-negative"
  else if w4 < 0 then
    .error "dataflow_confidence_weight must be non-negative"
  else if w5 < 0 then
    .error "test_coverage_delta_weight must be non-negative"
  else
    let overall :=
      overall?.getD (f1 * w1 + f2 * w2 + f3 * w3 + f4 * w4 + f5 * w5)
    if ¬ (0 ≤ overall ∧ overall ≤ 100) then
      .error "Overall score must be between 0 and 100"
    else
      .ok { id := id, code_review_id := code_review_id,
            calculated_at := calculated_at,
            code_complexity_score := f1, security_impact_score := f2,
            critical_files_score := f3, dataflow_confidence_score := f4,
            test_coverage_delta_score := f5,
            code_complexity_weight := w1, security_impact_weight := w2,
            critical_files_weight := w3, dataflow_confidence_weight := w4,
            test_coverage_delta_weight := w5,
            overall_score := overall,
            risk_level := level?.getD (_determine_risk_level overall) }

end RiskScore

namespace InMemoryCodeReviewRepository

/-- `InMemoryCodeReviewRepository.search_by_text`: the stored dict's values
are modelled as a list; the query is lowercased once, and a review matches
when the lowered query occurs as a substring of the lowered title,
description, source branch, or target branch. -/
def search_by_text (store : List CodeReview) (query : String) :
    List CodeReview :=
  let query_lower := lowerStr query
  store.filter (fun r =>
    strContainsB (lowerStr r.title) query_lower ||
    strContainsB (lowerStr r.description) query_lower ||
    strContainsB (lowerStr r.source_branch) query_lower ||
    strContainsB (lowerStr r.target_branch) query_lower)

end InMemoryCodeReviewRepository

/-- One call of the approval-affecting state machine (`approve`, `reject`,
or `request_changes`), carrying the wall-clock instant of the call. -/
inductive RevOp where
  | approveOp (now : Nat) (uid : String)
  | rejectOp (now : Nat) (uid : String)
  | requestChangesOp (now : Nat) (uid : String)
deriving DecidableEq

/-- Apply one `RevOp` (`request_changes` never fails at the entity level). -/
def applyOp (r : CodeReview) : RevOp → Except String CodeReview
  | .approveOp now uid => r.approve now uid
  | .rejectOp now uid => r.reject now uid
  | .requestChangesOp now uid => .ok (r.request_changes now uid)

/-- Apply a sequence of `RevOp`s, stopping at the first failure; a `.ok`
result means every call in the sequence succeeded. -/
def applyOps (r : CodeReview) : List RevOp → Except String CodeReview
  | [] => .ok r
  | op :: rest =>
    match applyOp r op with
    | .ok r' => applyOps r' rest
    | .error e => .error e

/-- The bookkeeping invariant of spec section 8: `current_approvals` counts
the approvers, and nobody is simultaneously approver and rejector. -/
def ApprovalInvariant (r : CodeReview) : Prop :=
  r.current_approvals = r.approvers.card ∧ r.approvers ∩ r.rejectors = ∅

/-- The fields that every state-machine operation must leave untouched
(claim C10). -/
def FrameEq (a b : CodeReview) : Prop :=
  a.id = b.id ∧ a.title = b.title ∧ a.description = b.description ∧
  a.source_branch = b.source_branch ∧ a.target_branch = b.target_branch ∧
  a.requester = b.requester ∧ a.created_at = b.created_at ∧
  a.priority = b.priority ∧ a.required_approvals = b.required_approvals

deriving instance DecidableEq for Except

instance (r : CodeReview) : Decidable (ApprovalInvariant r) := by
  unfold ApprovalInvariant; infer_instance

instance (a b : CodeReview) : Decidable (FrameEq a b) := by
  unfold FrameEq; infer_instance

/-- A developer with no security/qa role, requester of the sample reviews. -/
def uDev : User :=
  { id := "user-1", username := "alice", email := "alice@example.com",
    roles := {UserRole.developer} }

/-- A freshly created review (status `open`, one required approval), titled
as in the spec's search scenario. -/
def rOpen : CodeReview :=
  { id := "review-1", title := "Add authentication",
    description := "Login flow", source_branch := "feature/auth",
    target_branch := "main", requester := uDev }

/-- The second review of the spec's search scenario. -/
def rDb : CodeReview :=
  { id := "review-2", title := "Database migration",
    description := "Schema change", source_branch := "feature/db",
    target_branch := "main", requester := uDev }

/-- A closed review (no approvals possible). -/
def rClosed : CodeReview :=
  { rOpen with id := "review-3", status := .closed }

/-- An approved review with enough approvals and no extra gates: mergeable. -/
def rApproved : CodeReview :=
  { rOpen with
    id := "review-4"
    status := .approved
    approvers := {"u"}
    current_approvals := 1 }

/-- Approved with enough approvals, but `security_approval_required` is set
and the requester has no role containing "security". -/
def rSecBlocked : CodeReview :=
  { rApproved with id := "review-5", security_approval_required := true }

/-- A review whose approvers and rejectors already intersect (the dataclass
accepts it: `__post_init__` checks no disjointness). -/
def rBad : CodeReview :=
  { rOpen with
    id := "review-6"
    approvers := {"a"}
    rejectors := {"a"}
    current_approvals := 1 }

/-- A high-priority review with no files, no edits, no risk score. -/
def rHighPrio : CodeReview :=
  { rOpen with id := "review-7", priority := .high }

/-- The result of a successful `approve` on `rOpen`. -/
def rOpenApproved : CodeReview :=
  (rOpen.approve 1 "u").toOption.getD rOpen

/-- The result of a successful `reject` on `rOpen`. -/
def rOpenRejected : CodeReview :=
  (rOpen.reject 1 "u").toOption.getD rOpen

/-- The result of a successful `merge` on `rApproved`. -/
def rMergedDemo : CodeReview :=
  (rApproved.merge 1).toOption.getD rApproved

/-- A two-step successful call sequence for the invariant witness. -/
def c4DemoOps : List RevOp :=
  [.approveOp 1 "u", .requestChangesOp 2 "u"]

/-- The review obtained by running `c4DemoOps` from `rOpen`. -/
def c4DemoResult : CodeReview :=
  (applyOps rOpen c4DemoOps).toOption.getD rOpen

/-- The repository contents of the spec's search scenario. -/
def searchStore : List CodeReview := [rOpen, rDb]

/-- The `RiskScore` built from five factor scores of 10 and the default
weights: overall 10, level "Low". -/
def rsTen : RiskScore :=
  { id := "rs-1", code_review_id := "cr-1", calculated_at := 0,
    code_complexity_score := 10, security_impact_score := 10,
    critical_files_score := 10, dataflow_confidence_score := 10,
    test_coverage_delta_score := 10,
    overall_score := 10, risk_level := "Low" }

/-- C1 (counterexample): an approved review with `current_approvals ≥
required_approvals` on which `can_merge()` is nevertheless false and
`merge()` fails, because `security_approval_required` is set and the
requester has no role containing "security" — refuting the claimed
two-condition iff. -/
theorem c1_counterexample :
    rSecBlocked.status = .approved ∧
    rSecBlocked.required_approvals ≤ rSecBlocked.current_approvals ∧
    rSecBlocked.can_merge = false ∧
    (rSecBlocked.merge 9).isOk = false := by decide

/-- C1 (amended): `can_merge()` is true iff the status is `approved`, the
security gate passes (when `security_approval_required`, some requester
role contains "security"), the QA gate passes (when
`qa_approval_required`, some requester role contains "qa"), and
`current_approvals ≥ required_approvals`; `merge()` succeeds exactly when
`can_merge()` holds, yields status `merged`, and fails with a domain error
otherwise. -/
theorem c1_merge_eligibility_amended (r : CodeReview) (now : Nat) :
    (r.can_merge = true ↔
      (r.status = .approved ∧
        (r.security_approval_required = true →
          r.requesterRoleHasSub "security" = true) ∧
        (r.qa_approval_required = true →
          r.requesterRoleHasSub "qa" = true) ∧
        r.required_approvals ≤ r.current_approvals)) ∧
    ((r.merge now).isOk = true ↔ r.can_merge = true) ∧
    (∀ r', r.merge now = .ok r' → r'.status = .merged) ∧
    (r.can_merge = false → ∃ e, r.merge now = .error e) := by
  refine ⟨?_, ?_, ?_, ?_⟩
  · unfold CodeReview.can_merge
    split_ifs with h1 h2 h3
    · simp only [Bool.false_eq_true, false_iff]
      rintro ⟨hs, -, -, -⟩
      exact h1 hs
    · simp only [Bool.and_eq_true, Bool.not_eq_true'] at h2
      simp only [Bool.false_eq_true, false_iff]
      rintro ⟨-, hsec, -, -⟩
      rw [hsec h2.1] at h2
      exact Bool.noConfusion h2.2
    · simp only [Bool.and_eq_true, Bool.not_eq_true'] at h3
      simp only [Bool.false_eq_true, false_iff]
      rintro ⟨-, -, hqa, -⟩
      rw [hqa h3.1] at h3
      exact Bool.noConfusion h3.2
    · rw [not_not] at h1
      simp only [Bool.and_eq_true, Bool.not_eq_true', not_and] at h2 h3
      simp only [decide_eq_true_eq]
      constructor
      · intro hcnt
        refine ⟨h1, ?_, ?_, hcnt⟩
        · intro hs
          cases hb : r.requesterRoleHasSub "security" with
          | false => exact absurd hb (h2 hs)
          | true => rfl
        · intro hq
          cases hb : r.requesterRoleHasSub "qa" with
          | false => exact absurd hb (h3 hq)
          | true => rfl
      · rintro ⟨-, -, -, hcnt⟩
        exact hcnt
  · unfold CodeReview.merge
    cases hcm : r.can_merge
    · rw [if_pos rfl]
      exact Iff.rfl
    · rw [if_neg (fun hh => Bool.noConfusion hh)]
      exact Iff.rfl
  · intro r' h
    unfold CodeReview.merge at h
    cases hcm : r.can_merge
    · rw [hcm, if_pos rfl] at h
      exact Except.noConfusion h
    · rw [hcm, if_neg (fun hh => Bool.noConfusion hh)] at h
      injection h with h
      subst h
      rfl
  · intro h
    unfold CodeReview.merge
    rw [if_pos h]
    exact ⟨_, rfl⟩

/-- C1 (witness): the amended characterization applied to the concrete
mergeable review `rApproved` (gates pass, merge yields `merged`) and to
`rOpen` (not approved, merge fails). -/
theorem c1_merge_eligibility_witness :
    rApproved.can_merge = true ∧
    rMergedDemo.status = .merged ∧
    rOpen.can_merge = false ∧
    (∃ e, rOpen.merge 5 = .error e) := by
  have h := c1_merge_eligibility_amended rApproved 1
  have h2 := c1_merge_eligibility_amended rOpen 5
  refine ⟨?_, ?_, ?_, ?_⟩
  · exact h.1.mpr ⟨by decide, by decide, by decide, by decide⟩
  · exact h.2.2.1 rMergedDemo (by decide)
  · decide
  · exact h2.2.2.2 (by decide)

/-- C2: `SLAService.set_sla_deadline` stamps `sla_hours_limit` with the
per-priority base hours and `sla_deadline` with `now` plus those hours,
leaving the remaining SLA fields (`is_escalated`, `escalation_level`,
`escalation_notified_at`) carried by the entity unchanged. -/
theorem c2_set_sla_deadline (r : CodeReview) (now : Nat) :
    (SLAService.set_sla_deadline now r).sla_hours_limit =
      SLAService.calculate_sla_hours r ∧
    (SLAService.set_sla_deadline now r).sla_deadline =
      some (now + SLAService.calculate_sla_hours r) ∧
    (SLAService.set_sla_deadline now r).is_escalated = r.is_escalated ∧
    (SLAService.set_sla_deadline now r).escalation_level =
      r.escalation_level ∧
    (SLAService.set_sla_deadline now r).escalation_notified_at =
      r.escalation_notified_at :=
  ⟨rfl, rfl, rfl, rfl, rfl⟩

/-- C3: `approve(uid)` fails exactly when the status is neither `open` nor
`under_review`; on success the result adds `uid` to the approvers, removes
it from the rejectors, recounts `current_approvals`, and the status flips
to `approved` precisely when the new approver count reaches
`required_approvals`, staying unchanged otherwise. -/
theorem c3_approve_characterization (r : CodeReview) (now : Nat)
    (uid : String) :
    ((∃ e, r.approve now uid = .error e) ↔
      (r.status ≠ .open ∧ r.status ≠ .under_review)) ∧
    (∀ r', r.approve now uid = .ok r' →
      r'.approvers = insert uid r.approvers ∧
      r'.rejectors = r.rejectors.erase uid ∧
      r'.current_approvals = (insert uid r.approvers).card ∧
      (r.required_approvals ≤ (insert uid r.approvers).card →
        r'.status = .approved) ∧
      (¬ r.required_approvals ≤ (insert uid r.approvers).card →
        r'.status = r.status)) := by
  constructor
  · unfold CodeReview.approve
    split_ifs with h
    · constructor
      · rintro ⟨e, he⟩
        exact he.elim
      · rintro ⟨ho, hu⟩
        rcases h with h | h
        · exact absurd h ho
        · exact absurd h hu
    · push_neg at h
      exact ⟨fun _ => h, fun _ => ⟨_, rfl⟩⟩
  · intro r' h
    unfold CodeReview.approve at h
    split_ifs at h
    injection h with h
    subst h
    refine ⟨rfl, rfl, rfl, ?_, ?_⟩
    · intro hge
      show (if r.required_approvals ≤ (insert uid r.approvers).card
        then ReviewStatus.approved else r.status) = .approved
      rw [if_pos hge]
    · intro hlt
      show (if r.required_approvals ≤ (insert uid r.approvers).card
        then ReviewStatus.approved else r.status) = r.status
      rw [if_neg hlt]

/-- C3 (witness): the characterization applied to the open review `rOpen`
(the approval by "u" succeeds, reaches the single required approval, and
flips the status) and to `rClosed` (approval fails). -/
theorem c3_approve_witness :
    rOpenApproved.approvers = insert "u" rOpen.approvers ∧
    rOpenApproved.rejectors = rOpen.rejectors.erase "u" ∧
    rOpenApproved.current_approvals = (insert "u" rOpen.approvers).card ∧
    rOpenApproved.status = .approved ∧
    (∃ e, rClosed.approve 1 "u" = .error e) := by
  have h := c3_approve_characterization rOpen 1 "u"
  have h2 := c3_approve_characterization rClosed 1 "u"
  obtain ⟨ha, hb, hc, hd, -⟩ := h.2 rOpenApproved (by decide)
  exact ⟨ha, hb, hc, hd (by decide), h2.1.mpr (by decide)⟩

/-- Adding `u` to one side while erasing it from the other keeps disjoint
sets disjoint. -/
theorem insert_inter_erase_empty (A R : Finset String) (u : String)
    (h : A ∩ R = ∅) : (insert u A) ∩ (R.erase u) = ∅ := by
  rw [Finset.eq_empty_iff_forall_not_mem]
  intro x hx
  rw [Finset.mem_inter, Finset.mem_insert, Finset.mem_erase] at hx
  obtain ⟨hxa, hne, hxr⟩ := And.intro hx.1 (And.intro hx.2.1 hx.2.2)
  rcases hxa with rfl | hxa
  · exact hne rfl
  · have hmem : x ∈ A ∩ R := Finset.mem_inter.mpr ⟨hxa, hxr⟩
    rw [h] at hmem
    exact Finset.not_mem_empty x hmem

/-- Mirror image of `insert_inter_erase_empty` for the rejecting
operations. -/
theorem erase_inter_insert_empty (A R : Finset String) (u : String)
    (h : A ∩ R = ∅) : (A.erase u) ∩ (insert u R) = ∅ := by
  rw [Finset.eq_empty_iff_forall_not_mem]
  intro x hx
  rw [Finset.mem_inter, Finset.mem_erase, Finset.mem_insert] at hx
  obtain ⟨⟨hne, hxa⟩, hxr⟩ := hx
  rcases hxr with rfl | hxr
  · exact hne rfl
  · have hmem : x ∈ A ∩ R := Finset.mem_inter.mpr ⟨hxa, hxr⟩
    rw [h] at hmem
    exact Finset.not_mem_empty x hmem

/-- Every single successful `approve`/`reject`/`request_changes` call
preserves the approval-bookkeeping invariant. -/
theorem applyOp_preserves_invariant (r r' : CodeReview) (op : RevOp)
    (hinv : ApprovalInvariant r) (h : applyOp r op = .ok r') :
    ApprovalInvariant r' := by
  cases op with
  | approveOp now uid =>
    unfold applyOp CodeReview.approve at h
    split_ifs at h
    injection h with h
    subst h
    exact ⟨rfl, insert_inter_erase_empty _ _ _ hinv.2⟩
  | rejectOp now uid =>
    unfold applyOp CodeReview.reject at h
    split_ifs at h
    injection h with h
    subst h
    exact ⟨rfl, erase_inter_insert_empty _ _ _ hinv.2⟩
  | requestChangesOp now uid =>
    unfold applyOp CodeReview.request_changes at h
    injection h with h
    subst h
    exact ⟨rfl, erase_inter_insert_empty _ _ _ hinv.2⟩

/-- C4 (amended): starting from any review that already satisfies
`current_approvals == len(approvers)` and `approvers ∩ rejectors == ∅`,
every finite sequence of successful `approve`/`reject`/`request_changes`
calls preserves both properties. -/
theorem c4_invariant_amended (r r' : CodeReview) (ops : List RevOp)
    (hinv : ApprovalInvariant r) (h : applyOps r ops = .ok r') :
    ApprovalInvariant r' := by
  induction ops generalizing r with
  | nil =>
    unfold applyOps at h
    injection h with h
    subst h
    exact hinv
  | cons op rest ih =>
    unfold applyOps at h
    cases hop : applyOp r op with
    | ok rmid =>
      rw [hop] at h
      exact ih rmid (applyOp_preserves_invariant r rmid op hinv hop) h
    | error e =>
      rw [hop] at h
      exact Except.noConfusion h

/-- C4 (counterexample): the claim quantifies over *every* `CodeReview`,
but the dataclass accepts a review whose approvers and rejectors already
intersect (`__post_init__` checks no disjointness); after one successful
`approve("b")` call on `rBad` (a valid instance whose approvers and
rejectors both consist of user "a") the intersection is still nonempty. -/
theorem c4_counterexample :
    CodeReview.valid rBad = true ∧
    Except.map (fun r => r.approvers ∩ r.rejectors)
      (applyOps rBad [RevOp.approveOp 1 "b"]) = .ok {"a"} ∧
    ({"a"} : Finset String) ≠ ∅ := by decide

/-- C4 (witness): the amended invariant theorem applied to the concrete
fresh review `rOpen` and the successful two-call sequence `c4DemoOps`. -/
theorem c4_invariant_witness :
    ApprovalInvariant rOpen ∧ ApprovalInvariant c4DemoResult :=
  ⟨by decide,
    c4_invariant_amended rOpen c4DemoResult c4DemoOps (by decide) (by decide)⟩

set_option maxHeartbeats 1000000 in
/-- C5: for every `RiskScore` successfully constructed from factor scores
in [0, 100] and non-negative weights summing to 1.0 within the 0.001
tolerance (with `overall_score` and `risk_level` left to be computed),
`overall_score` is exactly the weighted sum of the factors, lies in
[0, 100], and `risk_level` is determined from it by the fixed
thresholds. -/
theorem c5_riskscore_weighted_sum (id crid : String) (cat : Nat)
    (f1 f2 f3 f4 f5 w1 w2 w3 w4 w5 : ℚ) (rs : RiskScore)
    (hf1 : 0 ≤ f1 ∧ f1 ≤ 100) (hf2 : 0 ≤ f2 ∧ f2 ≤ 100)
    (hf3 : 0 ≤ f3 ∧ f3 ≤ 100) (hf4 : 0 ≤ f4 ∧ f4 ≤ 100)
    (hf5 : 0 ≤ f5 ∧ f5 ≤ 100)
    (hw1 : 0 ≤ w1) (hw2 : 0 ≤ w2) (hw3 : 0 ≤ w3) (hw4 : 0 ≤ w4)
    (hw5 : 0 ≤ w5)
    (hsum : pyAbs (w1 + w2 + w3 + w4 + w5 - 1) ≤ 0.001)
    (h : RiskScore.mkRiskScore id crid cat f1 f2 f3 f4 f5 w1 w2 w3 w4 w5
      none none = .ok rs) :
    rs.overall_score = f1 * w1 + f2 * w2 + f3 * w3 + f4 * w4 + f5 * w5 ∧
    0 ≤ rs.overall_score ∧ rs.overall_score ≤ 100 ∧
    rs.risk_level = RiskScore._determine_risk_level rs.overall_score := by
  unfold RiskScore.mkRiskScore at h
  split_ifs at h with g1 g2 g3 g4 g5 g6 g7 g8 g9 g10 g11 g12 g13
  simp only [Option.getD] at h
  split_ifs at h with g14
  injection h with h
  subst h
  exact ⟨rfl, g14.1, g14.2, rfl⟩

/-- C5 (witness): the weighted-sum characterization applied to the
concrete `RiskScore` with all five factors 10 and the default weights. -/
theorem c5_riskscore_witness :
    rsTen.overall_score =
      10 * 0.2 + 10 * 0.3 + 10 * 0.2 + 10 * 0.2 + 10 * 0.1 ∧
    0 ≤ rsTen.overall_score ∧ rsTen.overall_score ≤ 100 ∧
    rsTen.risk_level = RiskScore._determine_risk_level rsTen.overall_score :=
  c5_riskscore_weighted_sum "rs-1" "cr-1" 0 10 10 10 10 10 0.2 0.3 0.2 0.2
    0.1 rsTen (by norm_num) (by norm_num) (by norm_num) (by norm_num)
    (by norm_num) (by norm_num) (by norm_num) (by norm_num) (by norm_num)
    (by norm_num) (by norm_num [pyAbs])
    (by
      have hid : ¬("rs-1" = "") := by decide
      have hcr : ¬("cr-1" = "") := by decide
      norm_num [RiskScore.mkRiskScore, pyAbs,
        RiskScore._determine_risk_level, rsTen, hid, hcr])

/-- C6 (counterexample): the scenario's `RiskScore` — factors
(50, 30, 20, 40, 10) with the default weights — has risk_level "Medium",
not "Low": its overall score 32 falls in the [20, 40) band of
`_determine_risk_level`. -/
theorem c6_counterexample :
    Except.map RiskScore.risk_level
      (RiskScore.mkRiskScore "risk-123" "review-123" 0 50 30 20 40 10
        0.2 0.3 0.2 0.2 0.1 none none) ≠ .ok "Low" ∧
    Except.map RiskScore.risk_level
      (RiskScore.mkRiskScore "risk-123" "review-123" 0 50 30 20 40 10
        0.2 0.3 0.2 0.2 0.1 none none) = .ok "Medium" := by
  have hid : ¬("risk-123" = "") := by decide
  have hcr : ¬("review-123" = "") := by decide
  norm_num [RiskScore.mkRiskScore, pyAbs, RiskScore._determine_risk_level,
    Except.map, hid, hcr]
  decide

/-- C6 (amended): the scenario's `RiskScore` yields overall_score = 32.0
and risk_level "Medium" (the 32 < 40 threshold bounds the Medium band, not
the Low band). -/
theorem c6_scenario_amended :
    Except.map (fun rs => (rs.overall_score, rs.risk_level))
      (RiskScore.mkRiskScore "risk-123" "review-123" 0 50 30 20 40 10
        0.2 0.3 0.2 0.2 0.1 none none) = .ok (32, "Medium") := by
  have hid : ¬("risk-123" = "") := by decide
  have hcr : ¬("review-123" = "") := by decide
  norm_num [RiskScore.mkRiskScore, pyAbs, RiskScore._determine_risk_level,
    Except.map, hid, hcr]

/-- C7 (code bug): on the concrete high-priority review `rHighPrio` the
source's estimate is 15 while the documented computation (spec section 4.4
and the source's own inline comments) gives `int(15 * 0.75) = 11`: the
source compares the enum-typed `priority` to the strings "high" and
"critical", a comparison that is false for every member and every string,
so the priority multiplier branch is dead code. -/
theorem c7_time_estimate_divergence :
    rHighPrio.priority = .high ∧
    ReviewDomainService.calculate_review_time_estimate rHighPrio = 15 ∧
    ReviewDomainService.calculate_review_time_estimate_as_documented
      rHighPrio = 11 ∧
    (∀ (r : CodeReview) (s : String),
      ReviewDomainService.enumEqStr r.priority s = false) :=
  ⟨rfl, by decide, by decide, fun _ _ => rfl⟩

/-- C8: the per-priority base SLA hours are 4 / 24 / 48 / 72 for critical /
high / medium / low (the dict's `.get` default of 48 is the `getD`
fallback in `calculate_sla_hours`, unreachable while every
`ReviewPriority` member is a key). -/
theorem c8_sla_hours_by_priority (r : CodeReview) :
    SLAService.calculate_sla_hours r =
      match r.priority with
      | .critical => 4
      | .high => 24
      | .medium => 48
      | .low => 72 := by
  unfold SLAService.calculate_sla_hours
  cases hp : r.priority <;> rfl

/-- C9: `search_by_text(query)` returns exactly the stored reviews in which
the lowercased query occurs as a substring of the lowercased title,
description, source branch, or target branch; and two queries with the
same lowercasing (in particular, queries differing only in letter case)
return the same result list. -/
theorem c9_search_by_text (store : List CodeReview) (q : String) :
    (∀ r : CodeReview,
      r ∈ InMemoryCodeReviewRepository.search_by_text store q ↔
        (r ∈ store ∧
          (strContainsB (lowerStr r.title) (lowerStr q) = true ∨
           strContainsB (lowerStr r.description) (lowerStr q) = true ∨
           strContainsB (lowerStr r.source_branch) (lowerStr q) = true ∨
           strContainsB (lowerStr r.target_branch) (lowerStr q) = true))) ∧
    (∀ q' : String, lowerStr q = lowerStr q' →
      InMemoryCodeReviewRepository.search_by_text store q =
        InMemoryCodeReviewRepository.search_by_text store q') := by
  constructor
  · intro r
    unfold InMemoryCodeReviewRepository.search_by_text
    rw [List.mem_filter]
    simp only [Bool.or_eq_true, or_assoc]
  · intro q' hq
    unfold InMemoryCodeReviewRepository.search_by_text
    rw [hq]

/-- C9 (witness): the spec's search scenario over the two stored reviews
"Add authentication" and "Database migration" — "authentication" matches
exactly the first, and "AUTHENTICATION" gives the same result list. -/
theorem c9_search_witness :
    rOpen ∈ InMemoryCodeReviewRepository.search_by_text searchStore
      "authentication" ∧
    rDb ∉ InMemoryCodeReviewRepository.search_by_text searchStore
      "authentication" ∧
    InMemoryCodeReviewRepository.search_by_text searchStore
      "AUTHENTICATION" =
      InMemoryCodeReviewRepository.search_by_text searchStore
        "authentication" := by
  have h := c9_search_by_text searchStore "authentication"
  refine ⟨?_, ?_, ?_⟩
  · exact (h.1 rOpen).mpr ⟨by decide, Or.inl (by decide)⟩
  · intro hmem
    have hc := ((h.1 rDb).mp hmem).2
    revert hc
    decide
  · exact (h.2 "AUTHENTICATION" (by decide)).symm

/-- C10: each state-machine operation — `assign_reviewer`, `approve`,
`reject`, `request_changes`, `merge`, `close`, `add_comment` — returns (on
success, for the fallible ones) an instance agreeing with the original on
id, title, description, source_branch, target_branch, requester,
created_at, priority, and required_approvals. -/
theorem c10_state_machine_frame (r : CodeReview) (now : Nat)
    (uid : String) :
    FrameEq r (r.assign_reviewer now uid) ∧
    (∀ r', r.approve now uid = .ok r' → FrameEq r r') ∧
    (∀ r', r.reject now uid = .ok r' → FrameEq r r') ∧
    FrameEq r (r.request_changes now uid) ∧
    (∀ r', r.merge now = .ok r' → FrameEq r r') ∧
    FrameEq r (r.close now) ∧
    FrameEq r (r.add_comment now) := by
  refine ⟨⟨rfl, rfl, rfl, rfl, rfl, rfl, rfl, rfl, rfl⟩, ?_, ?_,
    ⟨rfl, rfl, rfl, rfl, rfl, rfl, rfl, rfl, rfl⟩, ?_,
    ⟨rfl, rfl, rfl, rfl, rfl, rfl, rfl, rfl, rfl⟩,
    ⟨rfl, rfl, rfl, rfl, rfl, rfl, rfl, rfl, rfl⟩⟩
  · intro r' h
    unfold CodeReview.approve at h
    split_ifs at h
    injection h with h
    subst h
    exact ⟨rfl, rfl, rfl, rfl, rfl, rfl, rfl, rfl, rfl⟩
  · intro r' h
    unfold CodeReview.reject at h
    split_ifs at h
    injection h with h
    subst h
    exact ⟨rfl, rfl, rfl, rfl, rfl, rfl, rfl, rfl, rfl⟩
  · intro r' h
    unfold CodeReview.merge at h
    split_ifs at h
    injection h with h
    subst h
    exact ⟨rfl, rfl, rfl, rfl, rfl, rfl, rfl, rfl, rfl⟩

/-- C10 (witness): the frame condition applied to concrete successful
calls — the always-succeeding operations on `rOpen`, the successful
`approve`/`reject` on `rOpen`, and the successful `merge` on
`rApproved`. -/
theorem c10_frame_witness :
    FrameEq rOpen (rOpen.assign_reviewer 1 "u") ∧
    FrameEq rOpen rOpenApproved ∧
    FrameEq rOpen rOpenRejected ∧
    FrameEq rOpen (rOpen.request_changes 1 "u") ∧
    FrameEq rApproved rMergedDemo ∧
    FrameEq rOpen (rOpen.close 1) ∧
    FrameEq rOpen (rOpen.add_comment 1) := by
  have h := c10_state_machine_frame rOpen 1 "u"
  have h2 := c10_state_machine_frame rApproved 1 "u"
  exact ⟨h.1, h.2.1 rOpenApproved (by decide),
    h.2.2.1 rOpenRejected (by decide), h.2.2.2.1,
    h2.2.2.2.2.1 rMergedDemo (by decide), h.2.2.2.2.2.1, h.2.2.2.2.2.2⟩
